import Mathlib

/-!
Verification development for the install/build driver of `opencv4nodejs`
(`src/install/compileLib.ts`).

The file shallowly embeds the module's functions:

* `getDefaultIncludeDirs`, `getDefaultLibDir` — platform-conditional defaults;
* `getLibDir` — effective library directory selection;
* `getOPENCV4NODEJS_LIBRARIES`, `getOPENCV4NODEJS_DEFINES`,
  `getOPENCV4NODEJS_INCLUDES` — flag derivations;
* `compileLib` — the orchestrating entry point, modelled as a function from
  its inputs (parsed CLI options, process environment, builder-provided data,
  filesystem facts) to an `Except` of the thrown error or the ordered list of
  side effects it performs;
* `execCallback` — the completion callback registered on the spawned
  `node-gyp` child process, modelled separately because it runs after
  `compileLib` has returned.

`resolvePath` (from `lib/commons`) is kept abstract: every definition and
theorem is parametric in a function `rp : Option String → String` that returns
`""` exactly when JavaScript `resolvePath` returns a falsy value, matching how
the call sites consume it (`||` fallbacks and `!dir` checks).  `process.platform`
is modelled as a `String`, with `isWin` testing it against `"win32"` as
`@u4/opencv-build`'s `isWin()` does.
-/

namespace CompileLib

/-- JavaScript truthiness of an optional string: `undefined` and `""` are falsy,
any non-empty string is truthy. -/
def truthy : Option String → Bool
  | none => false
  | some s => s != ""

/-- `isWin()` from `@u4/opencv-build`: true exactly when `process.platform`
is the string `"win32"`. -/
def isWin (platform : String) : Bool := platform == "win32"

/-- The error kinds the module can throw.  The source throws plain `Error`
objects; the constructors carry the spec's names for the distinct throw sites
(`configurationError`, `missingDirectoryError`, `noLibrariesFoundError`) plus
`subprocessError` (a child-process failure object, never actually thrown by the
source but needed to state claims about it) and `unlinkError` (an exception
raised by `fs.unlinkSync` inside the completion callback). -/
inductive BuildError where
  | configurationError (msg : String)
  | missingDirectoryError (msg : String)
  | noLibrariesFoundError (msg : String)
  | subprocessError (name message : String) (code : Int)
  | unlinkError (msg : String)
deriving Repr, DecidableEq

/-- Source line 11: `const defaultDir = '/usr/local'`. -/
def defaultDir : String := "/usr/local"

/-- Source line 12: `const defaultLibDir = defaultDir + '/lib'`. -/
def defaultLibDir : String := defaultDir ++ "/lib"

/-- Source line 13: `const defaultIncludeDir = defaultDir + '/include'`. -/
def defaultIncludeDir : String := defaultDir ++ "/include"

/-- Source line 14: `const defaultIncludeDirOpenCV4 = defaultIncludeDir + '/opencv4'`. -/
def defaultIncludeDirOpenCV4 : String := defaultIncludeDir ++ "/opencv4"

/-- Source lines 19-25: global system include paths; throws on Windows. -/
def getDefaultIncludeDirs (platform : String) : Except BuildError (List String) :=
  if isWin platform then
    .error (.configurationError
      "OPENCV_INCLUDE_DIR has to be defined on windows when auto build is disabled")
  else
    .ok [defaultIncludeDir, defaultIncludeDirOpenCV4]

/-- Source lines 30-36: default lib dir; throws on Windows. -/
def getDefaultLibDir (platform : String) : Except BuildError String :=
  if isWin platform then
    .error (.configurationError
      "OPENCV_LIB_DIR has to be defined on windows when auto build is disabled")
  else
    .ok defaultLibDir

/-- One discovered OpenCV module, as reported by the builder
(`OpencvModule` from `@u4/opencv-build`): a module name and an optional
on-disk library path. -/
structure OpencvModule where
  opencvModule : String
  libPath : Option String
deriving Repr, DecidableEq

/-- The fields of the builder's `OpenCVBuildEnv` that `compileLib.ts` reads. -/
structure OpenCVBuildEnv where
  isAutoBuildDisabled : Bool
  opencvLibDir : Option String
  opencvInclude : Option String
  opencv4Include : Option String
deriving Repr, DecidableEq

/-- The entries of `process.env` that `compileLib.ts` reads. -/
structure ProcessEnv where
  OPENCV_LIB_DIR : Option String
  OPENCV_INCLUDE_DIR : Option String
  BINDINGS_DEBUG : Option String
deriving Repr, DecidableEq

/-- Source lines 41-51: the effective library directory.
`rp` abstracts `resolvePath`; `rp x = ""` models a falsy result. -/
def getLibDir (rp : Option String → String) (platform : String) (penv : ProcessEnv)
    (env : OpenCVBuildEnv) : Except BuildError String :=
  if env.isAutoBuildDisabled then
    if rp penv.OPENCV_LIB_DIR != "" then .ok (rp penv.OPENCV_LIB_DIR)
    else getDefaultLibDir platform
  else
    let dir := rp env.opencvLibDir
    if dir == "" then .error (.configurationError "failed to resolve opencvLibDir path")
    else .ok dir

/-- Source lines 53-63: link-argument derivation. -/
def getOPENCV4NODEJS_LIBRARIES (rp : Option String → String) (platform : String)
    (libDir : String) (libsFoundInDir : List OpencvModule) : List String :=
  if isWin platform then
    libsFoundInDir.map fun lib => rp lib.libPath
  else
    ("-L" ++ libDir) ::
      ((libsFoundInDir.map fun lib => "-lopencv_" ++ lib.opencvModule) ++
        ["-Wl,-rpath," ++ libDir])

/-- JavaScript's `String.prototype.toUpperCase()` on the ASCII module names:
character-wise uppercase.  (Stated structurally over the character list so
that it reduces definitionally; core `String.toUpper` is a position loop.) -/
def toUpperCase (s : String) : String := ⟨s.data.map Char.toUpper⟩

/-- Source lines 65-71: compiler-define derivation. -/
def getOPENCV4NODEJS_DEFINES (libsFoundInDir : List OpencvModule) : List String :=
  libsFoundInDir.map fun lib => "OPENCV4NODEJS_FOUND_LIBRARY_" ++ toUpperCase lib.opencvModule

/-- Source lines 73-85: include-path derivation.  The source function also
takes `libsFoundInDir` and ignores it; the unused argument is kept. -/
def getOPENCV4NODEJS_INCLUDES (rp : Option String → String) (platform : String)
    (penv : ProcessEnv) (env : OpenCVBuildEnv) (_libsFoundInDir : List OpencvModule) :
    Except BuildError (List String) :=
  let explicitIncludeDir := if truthy penv.OPENCV_INCLUDE_DIR then rp penv.OPENCV_INCLUDE_DIR else ""
  if env.isAutoBuildDisabled then
    if explicitIncludeDir != "" then .ok [explicitIncludeDir]
    else getDefaultIncludeDirs platform
  else
    .ok [rp env.opencvInclude, rp env.opencv4Include]

/-- The option record produced by `mri(args)`, restricted to the fields the
source reads.  `dryRunDash` stands for `parsed['dry-run']`. -/
structure ParsedArgs where
  help : Bool
  h : Bool
  version : Option String
  flags : Option String
  cuda : Bool
  nocontrib : Bool
  nobuild : Bool
  jobs : Option String
  j : Option String
  dryrun : Bool
  dryRunDash : Bool
deriving Repr, DecidableEq

/-- Source lines 89, 107-108: `JOBS` starts as `'max'`, is overwritten by a
truthy `parsed.jobs`, then overwritten again by a truthy `parsed.j`. -/
def computeJOBS (parsed : ParsedArgs) : String :=
  let JOBS := "max"
  let JOBS := if truthy parsed.jobs then parsed.jobs.getD "" else JOBS
  let JOBS := if truthy parsed.j then parsed.j.getD "" else JOBS
  JOBS

/-- Source lines 145-149, 163: the flags string (optional ` --debug`, then
` --jobs <JOBS>`) appended to `node-gyp rebuild `. -/
def nodegypCmd (penv : ProcessEnv) (parsed : ParsedArgs) : String :=
  "node-gyp rebuild " ++
    ((if truthy penv.BINDINGS_DEBUG then " --debug" else "") ++
      " --jobs " ++ computeJOBS parsed)

/-- The side effects `compileLib` performs (in order), other than log lines. -/
inductive Effect where
  | printUsage
  | installCalled
  | setEnv (name value : String)
  | copyFile (src dst : String)
  | printLine (line : String)
  | spawn (cmd : String)
deriving Repr, DecidableEq

/-- The side effects of the child-process completion callback. -/
inductive CbEffect where
  | unlink (p : String)
  | printErrorObject
  | logError (msg : String)
  | logInfo (msg : String)
deriving Repr, DecidableEq

/-- Source lines 131-135: ask the builder for all modules, keep those whose
`libPath` is truthy, and throw when nothing remains. -/
def enumerateLibs (libDir : String) (libsInDir : List OpencvModule) :
    Except BuildError (List OpencvModule) :=
  let libsFoundInDir := libsInDir.filter fun lib => truthy lib.libPath
  if libsFoundInDir.isEmpty then
    .error (.noLibrariesFoundError ("no OpenCV libraries found in lib dir: " ++ libDir))
  else
    .ok libsFoundInDir

/-- `join(';')` used on the three derived sequences (source lines 138-140). -/
def joinSemi (xs : List String) : String := String.intercalate ";" xs

/-- Source lines 166-173: the seven `console.log` lines of dry-run mode. -/
def dryRunPrints (defines includes libraries cmd : String) : List Effect :=
  [.printLine "",
   .printLine ("export OPENCV4NODEJS_DEFINES=\"" ++ defines ++ "\""),
   .printLine ("export OPENCV4NODEJS_INCLUDES=\"" ++ includes ++ "\""),
   .printLine ("export OPENCV4NODEJS_LIBRARIES=\"" ++ libraries ++ "\""),
   .printLine "",
   .printLine cmd,
   .printLine ""]

/-- The inputs `compileLib` consumes: the parsed options and raw argument
list, the process environment, the builder's environment and module listing,
the filesystem facts it tests (`fs.existsSync` on the lib dir before and after
a potential `builder.install()`, and existence of `_binding.gyp`), and the
working directory `path.join(__dirname, '..')`. -/
structure CompileInputs where
  parsed : ParsedArgs
  args : List String
  penv : ProcessEnv
  env : OpenCVBuildEnv
  builderLibs : List OpencvModule
  libDirExistsBefore : Bool
  libDirExistsAfterInstall : Bool
  hidenGypExists : Bool
  cwd : String
deriving Repr, DecidableEq

/-- Source lines 87-187: the `compileLib` entry point.  Returns the thrown
error, or the ordered list of side effects performed by the synchronous body
(the child's completion callback is `execCallback` below, since it fires after
`compileLib` has returned). -/
def compileLib (rp : Option String → String) (platform : String) (inp : CompileInputs) :
    Except BuildError (List Effect) :=
  if inp.parsed.help || inp.parsed.h || !(inp.args.contains "build") then
    .ok [.printUsage]
  else
    match getLibDir rp platform inp.penv inp.env with
    | .error e => .error e
    | .ok libDir =>
      let installEffects : List Effect :=
        if inp.libDirExistsBefore then [] else [.installCalled]
      if !(inp.libDirExistsBefore || inp.libDirExistsAfterInstall) then
        .error (.missingDirectoryError ("library dir does not exist: " ++ libDir))
      else
        match enumerateLibs libDir inp.builderLibs with
        | .error e => .error e
        | .ok libsFoundInDir =>
          match getOPENCV4NODEJS_INCLUDES rp platform inp.penv inp.env libsFoundInDir with
          | .error e => .error e
          | .ok includesList =>
            let defines := joinSemi (getOPENCV4NODEJS_DEFINES libsFoundInDir)
            let includes := joinSemi includesList
            let libraries := joinSemi (getOPENCV4NODEJS_LIBRARIES rp platform libDir libsFoundInDir)
            let envEffects : List Effect :=
              [.setEnv "OPENCV4NODEJS_DEFINES" defines,
               .setEnv "OPENCV4NODEJS_INCLUDES" includes,
               .setEnv "OPENCV4NODEJS_LIBRARIES" libraries]
            let hidenGyp := inp.cwd ++ "/_binding.gyp"
            let realGyp := inp.cwd ++ "/binding.gyp"
            let stagingEffects : List Effect :=
              if inp.hidenGypExists then [.copyFile hidenGyp realGyp] else []
            let cmd := nodegypCmd inp.penv inp.parsed
            let tailEffects : List Effect :=
              if inp.parsed.dryrun || inp.parsed.dryRunDash then
                dryRunPrints defines includes libraries cmd
              else
                [.spawn cmd]
            .ok (installEffects ++ envEffects ++ stagingEffects ++ tailEffects)

/-- The `error` object `child_process.exec` hands the completion callback
when the child failed to spawn or exited non-zero. -/
structure ExecError where
  name : String
  message : String
  code : Int
deriving Repr, DecidableEq

/-- Source lines 175-183: the completion callback of the spawned child.
`unlinkFailure` is `some msg` when `fs.unlinkSync(realGyp)` throws with that
message; the second component of the result is the error (if any) that escapes
the callback uncaught.  The source wraps nothing in try-catch: an `unlinkSync`
failure aborts the callback before any logging and escapes. -/
def execCallback (realGyp : String) (unlinkFailure : Option String)
    (error : Option ExecError) : List CbEffect × Option BuildError :=
  match unlinkFailure with
  | some msg => ([.unlink realGyp], some (.unlinkError msg))
  | none =>
    match error with
    | some e =>
      ([.unlink realGyp, .printErrorObject,
        .logError ("install.ts failed and return " ++ e.name ++ " " ++ e.message ++
          " return code: " ++ toString e.code)], none)
    | none =>
      ([.unlink realGyp, .logInfo "install.ts complet with no error"], none)

/-- Whether an effect is the spawning of the child process. -/
def isSpawn : Effect → Bool
  | .spawn _ => true
  | _ => false

/-- A whole invocation: run `compileLib`, and, exactly when it spawned the
child, run the completion callback on the child's outcome.  Result: the
`compileLib` result, the callback's effects, and the error (if any) escaping
the callback. -/
def compileLibAndChild (rp : Option String → String) (platform : String)
    (inp : CompileInputs) (childError : Option ExecError)
    (unlinkFailure : Option String) :
    Except BuildError (List Effect) × List CbEffect × Option BuildError :=
  match compileLib rp platform inp with
  | .error e => (.error e, [], none)
  | .ok effs =>
    if effs.any isSpawn then
      let cb := execCallback (inp.cwd ++ "/binding.gyp") unlinkFailure childError
      (.ok effs, cb.1, cb.2)
    else
      (.ok effs, [], none)

/-! ### Concrete fixtures used by witnesses and counterexamples -/

/-- A concrete instantiation of the abstract `resolvePath`: the identity on
present strings, falsy on `undefined`. -/
def rpId : Option String → String
  | none => ""
  | some s => s

/-- Two discovered modules, as in the spec's worked example. -/
def mods2 : List OpencvModule :=
  [⟨"core", some "/usr/local/lib/libopencv_core.so"⟩,
   ⟨"imgproc", some "/usr/local/lib/libopencv_imgproc.so"⟩]

/-- A builder environment with auto-build enabled. -/
def envAuto : OpenCVBuildEnv :=
  { isAutoBuildDisabled := false
    opencvLibDir := some "/root/opencv/build/lib"
    opencvInclude := some "/root/opencv/build/include"
    opencv4Include := some "/root/opencv/build/include/opencv4" }

/-- A process environment with none of the consumed variables set. -/
def penv0 : ProcessEnv :=
  { OPENCV_LIB_DIR := none, OPENCV_INCLUDE_DIR := none, BINDINGS_DEBUG := none }

/-- A parsed `build` invocation with no extra flags. -/
def parsedBuild : ParsedArgs :=
  { help := false, h := false, version := none, flags := none, cuda := false,
    nocontrib := false, nobuild := false, jobs := none, j := none,
    dryrun := false, dryRunDash := false }

/-- A complete real-run input: `build` on Linux, auto-build enabled, lib dir
present, two modules found, hidden descriptor present. -/
def inpReal : CompileInputs :=
  { parsed := parsedBuild, args := ["build"], penv := penv0, env := envAuto,
    builderLibs := mods2, libDirExistsBefore := true, libDirExistsAfterInstall := true,
    hidenGypExists := true, cwd := "/app" }

/-- The same input with `--dryrun` set. -/
def inpDry : CompileInputs := { inpReal with parsed := { parsedBuild with dryrun := true } }

/-- A concrete child-process failure: exit code 1. -/
def execErr0 : ExecError := { name := "Error", message := "Command failed", code := 1 }

/-! ### Claims -/

/-- C7: on every non-Windows platform, `getDefaultLibDir` returns
`/usr/local/lib` and `getDefaultIncludeDirs` returns exactly
`[/usr/local/include, /usr/local/include/opencv4]`; on Windows both fail with
a `ConfigurationError` instead of returning a value. -/
theorem C7_platform_defaults (platform : String) :
    (isWin platform = false →
      getDefaultLibDir platform = .ok "/usr/local/lib" ∧
      getDefaultIncludeDirs platform =
        .ok ["/usr/local/include", "/usr/local/include/opencv4"]) ∧
    (isWin platform = true →
      getDefaultLibDir platform = .error (.configurationError
        "OPENCV_LIB_DIR has to be defined on windows when auto build is disabled") ∧
      getDefaultIncludeDirs platform = .error (.configurationError
        "OPENCV_INCLUDE_DIR has to be defined on windows when auto build is disabled")) := by
  constructor <;> intro hw <;>
    simp [getDefaultLibDir, getDefaultIncludeDirs, hw, defaultLibDir,
      defaultIncludeDir, defaultIncludeDirOpenCV4, defaultDir]

/-- Witness for C7 at the concrete platforms `"linux"` and `"win32"`. -/
theorem C7_platform_defaults_witness :
    getDefaultLibDir "linux" = .ok "/usr/local/lib" ∧
    getDefaultIncludeDirs "linux" =
      .ok ["/usr/local/include", "/usr/local/include/opencv4"] ∧
    getDefaultLibDir "win32" = .error (.configurationError
      "OPENCV_LIB_DIR has to be defined on windows when auto build is disabled") :=
  ⟨((C7_platform_defaults "linux").1 rfl).1,
   ((C7_platform_defaults "linux").1 rfl).2,
   ((C7_platform_defaults "win32").2 rfl).1⟩

/-- C4: for every library directory and module sequence, the link-argument
derivation returns, on non-Windows, exactly `-L<libDir>` followed by one
`-lopencv_<moduleName>` token per module in order and a single trailing
`-Wl,-rpath,<libDir>` token; on Windows, exactly one token per module — the
module's resolved library file path — with no `-L`/`-rpath` tokens added. -/
theorem C4_link_arguments_shape (rp : Option String → String) (platform libDir : String)
    (mods : List OpencvModule) :
    (isWin platform = false →
      getOPENCV4NODEJS_LIBRARIES rp platform libDir mods =
        ("-L" ++ libDir) ::
          ((mods.map fun m => "-lopencv_" ++ m.opencvModule) ++
            ["-Wl,-rpath," ++ libDir]) ∧
      (getOPENCV4NODEJS_LIBRARIES rp platform libDir mods).length = mods.length + 2) ∧
    (isWin platform = true →
      getOPENCV4NODEJS_LIBRARIES rp platform libDir mods =
        mods.map (fun m => rp m.libPath) ∧
      (getOPENCV4NODEJS_LIBRARIES rp platform libDir mods).length = mods.length) := by
  constructor <;> intro hw <;>
    simp [getOPENCV4NODEJS_LIBRARIES, hw]

/-- Witness for C4: the spec's worked example on `"linux"`, and the Windows
branch on the same modules. -/
theorem C4_link_arguments_witness :
    getOPENCV4NODEJS_LIBRARIES rpId "linux" "/usr/local/lib" mods2 =
      ["-L/usr/local/lib", "-lopencv_core", "-lopencv_imgproc",
       "-Wl,-rpath,/usr/local/lib"] ∧
    getOPENCV4NODEJS_LIBRARIES rpId "win32" "/usr/local/lib" mods2 =
      ["/usr/local/lib/libopencv_core.so", "/usr/local/lib/libopencv_imgproc.so"] := by
  constructor
  · have h := ((C4_link_arguments_shape rpId "linux" "/usr/local/lib" mods2).1 rfl).1
    rw [h]; rfl
  · have h := ((C4_link_arguments_shape rpId "win32" "/usr/local/lib" mods2).2 rfl).1
    rw [h]; rfl

/-- C5: the defines derivation returns exactly one token per module, in
enumeration order, of the form `OPENCV4NODEJS_FOUND_LIBRARY_` followed by the
module name uppercased; in particular its length equals the number of found
modules. -/
theorem C5_defines_one_per_module (mods : List OpencvModule) :
    (getOPENCV4NODEJS_DEFINES mods).length = mods.length ∧
    ∀ i : Nat,
      (getOPENCV4NODEJS_DEFINES mods)[i]? =
        (mods[i]?).map fun m => "OPENCV4NODEJS_FOUND_LIBRARY_" ++ toUpperCase m.opencvModule := by
  refine ⟨by simp [getOPENCV4NODEJS_DEFINES], fun i => ?_⟩
  simp [getOPENCV4NODEJS_DEFINES]

/-- C6: the includes derivation returns, when auto-build is disabled, the
single-element sequence containing the resolved `OPENCV_INCLUDE_DIR` override
if that variable is set (truthy) and resolves to a non-empty path, else the
platform default include directories; when auto-build is enabled, the
two-element sequence of the resolved base include dir and the resolved
versioned (opencv4) include dir. -/
theorem C6_includes_selection (rp : Option String → String) (platform : String)
    (penv : ProcessEnv) (env : OpenCVBuildEnv) (mods : List OpencvModule) :
    getOPENCV4NODEJS_INCLUDES rp platform penv env mods =
      if env.isAutoBuildDisabled then
        if truthy penv.OPENCV_INCLUDE_DIR = true ∧ rp penv.OPENCV_INCLUDE_DIR ≠ "" then
          .ok [rp penv.OPENCV_INCLUDE_DIR]
        else getDefaultIncludeDirs platform
      else .ok [rp env.opencvInclude, rp env.opencv4Include] := by
  unfold getOPENCV4NODEJS_INCLUDES
  cases henv : env.isAutoBuildDisabled
  · simp
  · by_cases ht : truthy penv.OPENCV_INCLUDE_DIR
    · by_cases hr : rp penv.OPENCV_INCLUDE_DIR = "" <;> simp [ht, hr]
    · simp [ht]

/-- C8: `getLibDir` returns, when auto-build is disabled, the resolved
`OPENCV_LIB_DIR` override if present and non-empty, else the platform default
lib dir; when auto-build is enabled, the resolved builder-provided library
directory, failing with a `ConfigurationError` when it resolves to nothing.
The hypothesis `rp none = ""` is the `PathResolver` contract that an absent
input resolves to a falsy value. -/
theorem C8_lib_dir_selection (rp : Option String → String) (platform : String)
    (penv : ProcessEnv) (env : OpenCVBuildEnv) (hrp : rp none = "") :
    getLibDir rp platform penv env =
      if env.isAutoBuildDisabled then
        if penv.OPENCV_LIB_DIR ≠ none ∧ rp penv.OPENCV_LIB_DIR ≠ "" then
          .ok (rp penv.OPENCV_LIB_DIR)
        else getDefaultLibDir platform
      else
        if rp env.opencvLibDir = "" then
          .error (.configurationError "failed to resolve opencvLibDir path")
        else .ok (rp env.opencvLibDir) := by
  unfold getLibDir
  cases henv : env.isAutoBuildDisabled
  · by_cases hr : rp env.opencvLibDir = "" <;> simp [hr]
  · by_cases hr : rp penv.OPENCV_LIB_DIR = ""
    · simp [hr]
    · have hpresent : penv.OPENCV_LIB_DIR ≠ none := by
        intro hnone
        rw [hnone, hrp] at hr
        exact hr rfl
      simp [hr, hpresent]

/-- Witness for C8: with `rpId`, an explicit override wins when auto-build is
disabled, and the builder lib dir is returned when auto-build is enabled. -/
theorem C8_lib_dir_witness :
    getLibDir rpId "linux"
      { penv0 with OPENCV_LIB_DIR := some "/opt/ocv/lib" }
      { envAuto with isAutoBuildDisabled := true } = .ok "/opt/ocv/lib" ∧
    getLibDir rpId "linux" penv0 envAuto = .ok "/root/opencv/build/lib" := by
  constructor
  · have h := C8_lib_dir_selection rpId "linux"
      { penv0 with OPENCV_LIB_DIR := some "/opt/ocv/lib" }
      { envAuto with isAutoBuildDisabled := true } rfl
    rw [h]; rfl
  · have h := C8_lib_dir_selection rpId "linux" penv0 envAuto rfl
    rw [h]; rfl

/-- C9: library enumeration returns exactly the subsequence of the builder's
modules whose `libPath` is truthy, in the original order (a sublist — no
reordering, no duplication); it never returns an empty sequence (when the
filtered sequence is empty it fails with `NoLibrariesFoundError`); and the
filtering is idempotent: re-enumerating its own output returns it unchanged. -/
theorem C9_enumeration_filter (libDir : String) (libsInDir : List OpencvModule) :
    (∀ found, enumerateLibs libDir libsInDir = .ok found →
      found = libsInDir.filter (fun l => truthy l.libPath) ∧
      found.Sublist libsInDir ∧
      (∀ m, m ∈ found ↔ m ∈ libsInDir ∧ truthy m.libPath = true) ∧
      found ≠ [] ∧
      enumerateLibs libDir found = .ok found) ∧
    (libsInDir.filter (fun l => truthy l.libPath) = [] →
      enumerateLibs libDir libsInDir =
        .error (.noLibrariesFoundError ("no OpenCV libraries found in lib dir: " ++ libDir))) := by
  constructor
  · intro found hok
    unfold enumerateLibs at hok
    by_cases hempty : (libsInDir.filter fun l => truthy l.libPath).isEmpty
    · simp [hempty] at hok
    · simp only [hempty, Bool.false_eq_true, if_neg, ite_false, Except.ok.injEq] at hok
      subst hok
      have hself : (libsInDir.filter fun l => truthy l.libPath).filter
          (fun l => truthy l.libPath) = libsInDir.filter fun l => truthy l.libPath :=
        List.filter_eq_self.mpr fun a ha => (List.mem_filter.mp ha).2
      refine ⟨rfl, List.filter_sublist _, fun m => List.mem_filter, ?_, ?_⟩
      · intro hnil
        rw [hnil] at hempty
        exact hempty rfl
      · unfold enumerateLibs
        rw [hself]
        simp [hempty]
  · intro hnil
    unfold enumerateLibs
    rw [hnil]
    rfl

/-- Witness for C9: a three-module listing with one missing path filters to
the two present modules in order, and a listing with no present paths fails. -/
theorem C9_enumeration_witness :
    ([⟨"core", some "/usr/local/lib/libopencv_core.so"⟩,
      ⟨"imgproc", some "/usr/local/lib/libopencv_imgproc.so"⟩] : List OpencvModule).Sublist
      [⟨"core", some "/usr/local/lib/libopencv_core.so"⟩, ⟨"video", none⟩,
       ⟨"imgproc", some "/usr/local/lib/libopencv_imgproc.so"⟩] ∧
    enumerateLibs "/usr/local/lib"
      [⟨"core", some "/usr/local/lib/libopencv_core.so"⟩,
       ⟨"imgproc", some "/usr/local/lib/libopencv_imgproc.so"⟩] =
      .ok [⟨"core", some "/usr/local/lib/libopencv_core.so"⟩,
           ⟨"imgproc", some "/usr/local/lib/libopencv_imgproc.so"⟩] ∧
    enumerateLibs "/usr/local/lib" [⟨"video", none⟩] =
      .error (.noLibrariesFoundError "no OpenCV libraries found in lib dir: /usr/local/lib") :=
  ⟨(((C9_enumeration_filter "/usr/local/lib"
      [⟨"core", some "/usr/local/lib/libopencv_core.so"⟩, ⟨"video", none⟩,
       ⟨"imgproc", some "/usr/local/lib/libopencv_imgproc.so"⟩]).1 _ rfl)).2.1,
   (((C9_enumeration_filter "/usr/local/lib"
      [⟨"core", some "/usr/local/lib/libopencv_core.so"⟩, ⟨"video", none⟩,
       ⟨"imgproc", some "/usr/local/lib/libopencv_imgproc.so"⟩]).1 _ rfl)).2.2.2.2,
   (C9_enumeration_filter "/usr/local/lib" [⟨"video", none⟩]).2 rfl⟩

/-- C10: the composed command line always embeds `--jobs <N>` where `N` is
`computeJOBS`; `N` is `"max"` when neither `--jobs` nor `-j` is truthy, the
given value when exactly one is given, and the `-j` value when both are given
(`-j` takes precedence). -/
theorem C10_jobs_flag (penv : ProcessEnv) (parsed : ParsedArgs) :
    (∃ pre, nodegypCmd penv parsed = pre ++ ("--jobs " ++ computeJOBS parsed)) ∧
    (truthy parsed.jobs = false → truthy parsed.j = false →
      computeJOBS parsed = "max") ∧
    (∀ s, parsed.jobs = some s → s ≠ "" → truthy parsed.j = false →
      computeJOBS parsed = s) ∧
    (∀ s, parsed.j = some s → s ≠ "" → computeJOBS parsed = s) := by
  refine ⟨?_, ?_, ?_, ?_⟩
  · refine ⟨"node-gyp rebuild " ++
      ((if truthy penv.BINDINGS_DEBUG then " --debug" else "") ++ " "), ?_⟩
    unfold nodegypCmd
    cases htd : truthy penv.BINDINGS_DEBUG <;>
      simp [String.append_assoc] <;> rfl
  · intro hjobs hj
    simp [computeJOBS, hjobs, hj]
  · intro s hs hne hj
    have ht : (s != "") = true := by simp [hne]
    simp only [truthy] at hj
    simp [computeJOBS, hs, truthy, ht, hj]
  · intro s hs hne
    have ht : (s != "") = true := by simp [hne]
    simp [computeJOBS, hs, truthy, ht]

/-- Witness for C10: default, `--jobs 4` alone, `-j 2` alone, and both
together (the `-j` value wins); plus the composed command line at the
default. -/
theorem C10_jobs_witness :
    computeJOBS parsedBuild = "max" ∧
    computeJOBS { parsedBuild with jobs := some "4" } = "4" ∧
    computeJOBS { parsedBuild with j := some "2" } = "2" ∧
    computeJOBS { parsedBuild with jobs := some "4", j := some "2" } = "2" :=
  ⟨(C10_jobs_flag penv0 parsedBuild).2.1 rfl rfl,
   (C10_jobs_flag penv0 { parsedBuild with jobs := some "4" }).2.2.1 "4" rfl
     (by decide) rfl,
   (C10_jobs_flag penv0 { parsedBuild with j := some "2" }).2.2.2 "2" rfl (by decide),
   (C10_jobs_flag penv0 { parsedBuild with jobs := some "4", j := some "2" }).2.2.2
     "2" rfl (by decide)⟩

/-- The effect list a successful dry-run invocation performs: optional
install, the three environment exports, the staging copy when the hidden
descriptor exists, then the seven dry-run print lines — and nothing else
(in particular no spawn). -/
def dryRunEffects (rp : Option String → String) (platform : String) (inp : CompileInputs)
    (libDir : String) (includesList : List String) : List Effect :=
  let found := inp.builderLibs.filter fun l => truthy l.libPath
  let defines := joinSemi (getOPENCV4NODEJS_DEFINES found)
  let includes := joinSemi includesList
  let libraries := joinSemi (getOPENCV4NODEJS_LIBRARIES rp platform libDir found)
  (if inp.libDirExistsBefore then [] else [.installCalled]) ++
    [.setEnv "OPENCV4NODEJS_DEFINES" defines,
     .setEnv "OPENCV4NODEJS_INCLUDES" includes,
     .setEnv "OPENCV4NODEJS_LIBRARIES" libraries] ++
    (if inp.hidenGypExists then
      [.copyFile (inp.cwd ++ "/_binding.gyp") (inp.cwd ++ "/binding.gyp")] else []) ++
    dryRunPrints defines includes libraries (nodegypCmd inp.penv inp.parsed)

/-- C3: when dry-run is set on a build invocation whose configuration phases
succeed, `compileLib` returns without error with exactly the `dryRunEffects`
list: no child process is spawned, the staging copy still occurs exactly when
the hidden descriptor exists, and the three export lines followed by the
composed command line are printed; and since no child is spawned, the
completion callback never runs, so the staged descriptor is never deleted. -/
theorem C3_dry_run_no_spawn_no_delete (rp : Option String → String) (platform : String)
    (inp : CompileInputs) (libDir : String) (includesList : List String)
    (hdry : (inp.parsed.dryrun || inp.parsed.dryRunDash) = true)
    (hbuild : (inp.parsed.help || inp.parsed.h || !(inp.args.contains "build")) = false)
    (hlib : getLibDir rp platform inp.penv inp.env = .ok libDir)
    (hex : (inp.libDirExistsBefore || inp.libDirExistsAfterInstall) = true)
    (hfound : (inp.builderLibs.filter fun l => truthy l.libPath) ≠ [])
    (hinc : getOPENCV4NODEJS_INCLUDES rp platform inp.penv inp.env
      (inp.builderLibs.filter fun l => truthy l.libPath) = .ok includesList) :
    compileLib rp platform inp =
      .ok (dryRunEffects rp platform inp libDir includesList) ∧
    (∀ c, Effect.spawn c ∉ dryRunEffects rp platform inp libDir includesList) ∧
    (∀ childError unlinkFailure,
      compileLibAndChild rp platform inp childError unlinkFailure =
        (.ok (dryRunEffects rp platform inp libDir includesList), [], none)) := by
  have hisempty : (inp.builderLibs.filter fun l => truthy l.libPath).isEmpty = false := by
    cases hl : inp.builderLibs.filter fun l => truthy l.libPath
    · exact absurd hl hfound
    · rfl
  have henum : enumerateLibs libDir inp.builderLibs =
      .ok (inp.builderLibs.filter fun l => truthy l.libPath) := by
    simp [enumerateLibs, hisempty]
  have h1 : inp.parsed.help = false := by
    cases h : inp.parsed.help
    · rfl
    · rw [h] at hbuild; simp at hbuild
  have h2 : inp.parsed.h = false := by
    cases h : inp.parsed.h
    · rfl
    · rw [h] at hbuild; simp at hbuild
  have h3 : inp.args.contains "build" = true := by
    cases h : inp.args.contains "build"
    · rw [h1, h2, h] at hbuild; simp at hbuild
    · rfl
  have hmain : compileLib rp platform inp =
      .ok (dryRunEffects rp platform inp libDir includesList) := by
    unfold compileLib dryRunEffects
    rw [h1, h2, h3, hlib]
    simp [henum, hinc, hex, hdry]
  have hnospawn : ∀ c, Effect.spawn c ∉ dryRunEffects rp platform inp libDir includesList := by
    intro c
    unfold dryRunEffects
    by_cases h1 : inp.libDirExistsBefore <;> by_cases h2 : inp.hidenGypExists <;>
      simp [h1, h2, dryRunPrints]
  have hany : (dryRunEffects rp platform inp libDir includesList).any isSpawn = false := by
    unfold dryRunEffects
    by_cases h1 : inp.libDirExistsBefore <;> by_cases h2 : inp.hidenGypExists <;>
      simp [h1, h2, dryRunPrints, isSpawn]
  refine ⟨hmain, hnospawn, fun childError unlinkFailure => ?_⟩
  unfold compileLibAndChild
  rw [hmain]
  simp [hany]

/-- Witness for C3 at the concrete dry-run input `inpDry`: the returned
effect list is `dryRunEffects`, and the callback never runs even when a child
outcome is supplied. -/
theorem C3_dry_run_witness :
    compileLib rpId "linux" inpDry =
      .ok (dryRunEffects rpId "linux" inpDry "/root/opencv/build/lib"
        ["/root/opencv/build/include", "/root/opencv/build/include/opencv4"]) ∧
    compileLibAndChild rpId "linux" inpDry (some execErr0) none =
      (.ok (dryRunEffects rpId "linux" inpDry "/root/opencv/build/lib"
        ["/root/opencv/build/include", "/root/opencv/build/include/opencv4"]), [], none) :=
  ⟨(C3_dry_run_no_spawn_no_delete rpId "linux" inpDry "/root/opencv/build/lib"
      ["/root/opencv/build/include", "/root/opencv/build/include/opencv4"]
      rfl rfl rfl rfl (by decide) rfl).1,
   (C3_dry_run_no_spawn_no_delete rpId "linux" inpDry "/root/opencv/build/lib"
      ["/root/opencv/build/include", "/root/opencv/build/include/opencv4"]
      rfl rfl rfl rfl (by decide) rfl).2.2 (some execErr0) none⟩

/-- C1 (counterexample): at a concrete real-run build invocation whose child
exits with code 1, no error escapes anywhere — the completion callback merely
logs the failure, `compileLib` itself has already returned successfully, and
in particular no `SubprocessError` carrying the child's name, message and
exit code propagates. -/
theorem C1_counterexample_child_failure_swallowed :
    compileLibAndChild rpId "linux" inpReal (some execErr0) none =
      (Except.ok
        [.setEnv "OPENCV4NODEJS_DEFINES"
           "OPENCV4NODEJS_FOUND_LIBRARY_CORE;OPENCV4NODEJS_FOUND_LIBRARY_IMGPROC",
         .setEnv "OPENCV4NODEJS_INCLUDES"
           "/root/opencv/build/include;/root/opencv/build/include/opencv4",
         .setEnv "OPENCV4NODEJS_LIBRARIES"
           "-L/root/opencv/build/lib;-lopencv_core;-lopencv_imgproc;-Wl,-rpath,/root/opencv/build/lib",
         .copyFile "/app/_binding.gyp" "/app/binding.gyp",
         .spawn "node-gyp rebuild  --jobs max"],
       [.unlink "/app/binding.gyp", .printErrorObject,
        .logError "install.ts failed and return Error Command failed return code: 1"],
       none) ∧
    (compileLibAndChild rpId "linux" inpReal (some execErr0) none).2.2 ≠
      some (BuildError.subprocessError "Error" "Command failed" 1) := by
  constructor
  · rfl
  · decide

/-- C1 (amended): in real-run mode a child failure does not make the
invocation fail.  Provided the descriptor deletion itself succeeds, the
completion callback deletes the descriptor, prints the error object and logs
an error line carrying the child's name, message and exit code, and returns
without throwing; on child success it logs an info line; and no error ever
escapes the callback, whatever the child outcome, so `compileLib`'s result
(normal return) stands. -/
theorem C1_amended_child_failure_logged_not_thrown (realGyp : String) (e : ExecError)
    (rp : Option String → String) (platform : String) (inp : CompileInputs)
    (childError : Option ExecError) :
    execCallback realGyp none (some e) =
      ([.unlink realGyp, .printErrorObject,
        .logError ("install.ts failed and return " ++ e.name ++ " " ++ e.message ++
          " return code: " ++ toString e.code)], none) ∧
    execCallback realGyp none none =
      ([.unlink realGyp, .logInfo "install.ts complet with no error"], none) ∧
    (compileLibAndChild rp platform inp childError none).2.2 = none := by
  refine ⟨rfl, rfl, ?_⟩
  unfold compileLibAndChild
  cases hcl : compileLib rp platform inp with
  | error e2 => rfl
  | ok effs =>
    by_cases hs : effs.any isSpawn
    · cases childError <;> simp [hs, execCallback]
    · simp [hs]

/-- C2 (counterexample): at a concrete input where `fs.unlinkSync` fails
inside the completion callback, the exception escapes the callback uncaught:
the callback's only effect is the deletion attempt — nothing is logged — and
the escaping error is not `none`. -/
theorem C2_counterexample_unlink_failure_escapes :
    execCallback "/app/binding.gyp"
      (some "EACCES: permission denied, unlink /app/binding.gyp") (some execErr0) =
      ([CbEffect.unlink "/app/binding.gyp"],
       some (BuildError.unlinkError "EACCES: permission denied, unlink /app/binding.gyp")) ∧
    (execCallback "/app/binding.gyp"
      (some "EACCES: permission denied, unlink /app/binding.gyp") (some execErr0)).2 ≠
      none := by
  constructor
  · rfl
  · simp [execCallback]

/-- C2 (amended): on child completion — success or failure alike — deletion
of the active descriptor is attempted unconditionally as the first action of
the completion callback; but a failure of that deletion is not caught: it is
not logged, it aborts the rest of the callback (the callback performs only
the deletion attempt), and the exception escapes the callback. -/
theorem C2_amended_unlink_unconditional_failure_uncaught (realGyp msg : String)
    (err : Option ExecError) :
    (execCallback realGyp none err).1.head? = some (CbEffect.unlink realGyp) ∧
    execCallback realGyp (some msg) err =
      ([CbEffect.unlink realGyp], some (BuildError.unlinkError msg)) := by
  cases err <;> simp [execCallback]

end CompileLib
